import Mathlib

/-!
Shallow embedding of the load-balancer provisioning core of the
bff-manager repository (src/loadbalancer.py, class LoadBalancerManager),
together with theorems settling the specification claims.

External effects (gcloud subprocess invocations) are modelled by an
explicit trace of calls (`GCall`) plus small world/environment records
describing the outcome each external command would report.  The manifest
store and the project configuration are collaborators whose code is not
under src/; they are modelled from the spec's interface description.
-/

namespace BffLB

/-- Fixed topology constants of LoadBalancerManager. -/
def URL_MAP_NAME : String := "marketing-ai-url-map"

/-- Public domain constant of LoadBalancerManager. -/
def DOMAIN : String := "marketing-ai.lightricks.com"

/-- IAP brand resource constant of LoadBalancerManager. -/
def BRAND_NAME : String := "projects/924389117365/brands/924389117365"

/-- IAP access domain constant of LoadBalancerManager. -/
def IAP_DOMAIN : String := "lightricks.com"

/-- Modelled from the spec: ProjectContext (src/config.py is not under
src/): project name, cloud project id, default region. -/
structure ProjectConfig where
  project_name : String
  gcp_project_id : String
  default_region : String
deriving Repr, DecidableEq

/-- Modelled from the spec: one operation-log entry of the manifest
(operation name plus structured detail; the implicit timestamp is not
modelled). -/
structure LogEntry where
  op : String
  detail : List (String × String)
deriving Repr, DecidableEq

/-- Modelled from the spec: the ProvisioningManifest store
(src/manifest.py is not under src/): state flags, config values and an
append-only operation log, with last-write-wins reads. -/
structure Manifest where
  state : List (String × Bool)
  config : List (String × Option String)
  log : List LogEntry
deriving Repr, DecidableEq

/-- Modelled from the spec: get_state returns the flag value, an absent
key reading as false. -/
def Manifest.getState (m : Manifest) (k : String) : Bool :=
  (((m.state.find? (fun p => p.1 = k)).map (fun p => p.2))).getD false

/-- Modelled from the spec: update_state, last-write-wins. -/
def Manifest.updateState (m : Manifest) (k : String) (v : Bool) : Manifest :=
  { m with state := (k, v) :: m.state }

/-- Modelled from the spec: get_config returns the config value or
nothing when absent or cleared to null. -/
def Manifest.getConfig (m : Manifest) (k : String) : Option String :=
  ((m.config.find? (fun p => p.1 = k)).map (fun p => p.2)).getD none

/-- Modelled from the spec: update_config, where the value may be null. -/
def Manifest.updateConfig (m : Manifest) (k : String) (v : Option String) : Manifest :=
  { m with config := (k, v) :: m.config }

/-- Modelled from the spec: log_operation appends one entry to the
operation log. -/
def Manifest.logOperation (m : Manifest) (op : String) (detail : List (String × String)) : Manifest :=
  { m with log := m.log ++ [⟨op, detail⟩] }

/-- Python truthiness-based `a or b` over an optional string: an absent
or empty string falls through to the default. -/
def pyOrStr (a : Option String) (b : String) : String :=
  match a with
  | none => b
  | some s => if s = "" then b else s

/-! ## Character-list implementations of the Python string operations
the source uses (startswith, lower, strip, split, replace), written by
structural recursion so that concrete runs reduce in the kernel. -/

/-- Python str.startswith. -/
def pyStartsWith (s pre : String) : Bool :=
  pre.toList.isPrefixOf s.toList

/-- Python str.lower, on the ASCII range the source deals in. -/
def pyLower (s : String) : String :=
  ⟨s.toList.map Char.toLower⟩

/-- Whitespace for Python str.strip. -/
def pyIsWS (c : Char) : Bool :=
  c = ' ' ∨ c = '\t' ∨ c = '\n' ∨ c = '\r'

/-- Python str.strip on a character list. -/
def pyStripList (cs : List Char) : List Char :=
  ((cs.dropWhile pyIsWS).reverse.dropWhile pyIsWS).reverse

/-- Index of the first occurrence of a non-empty needle, if any. -/
def findSubIdx : List Char → List Char → Option Nat
  | _, [] => none
  | needle, c :: rest =>
    if needle.isPrefixOf (c :: rest) then some 0
    else (findSubIdx needle rest).map (fun i => i + 1)

/-- Whether the needle occurs in the haystack (Python `in` on str, for a
non-empty needle). -/
def containsSub (hay needle : List Char) : Bool :=
  (findSubIdx needle hay).isSome

/-- The second element of Python str.split(sep): the text between the
first and second occurrence of sep (to the end when sep occurs once),
or nothing when sep does not occur. -/
def splitSecond (sep hay : List Char) : Option (List Char) :=
  match findSubIdx sep hay with
  | none => none
  | some i =>
    let rest := hay.drop (i + sep.length)
    match findSubIdx sep rest with
    | none => some rest
    | some j => some (rest.take j)

/-- The last element of Python str.split(sep) for a single-character
separator. -/
def splitLastSeg (sep : Char) (cs : List Char) : List Char :=
  (cs.reverse.takeWhile (fun c => c ≠ sep)).reverse

/-- Python str.split(sep) for a single-character separator, keeping
empty segments, as the source does with the newline separator. -/
def splitOnChar (sep : Char) : List Char → List (List Char)
  | [] => [[]]
  | c :: rest =>
    let r := splitOnChar sep rest
    if c = sep then [] :: r
    else
      match r with
      | [] => [[c]]
      | h :: t => (c :: h) :: t

/-- Fuel-indexed body of Python str.replace for a non-empty pattern:
scan left to right, splicing in the replacement at each occurrence and
resuming after it. -/
def pyReplaceFuel : Nat → List Char → List Char → List Char → List Char
  | 0, _, _, hay => hay
  | fuel + 1, pat, repl, hay =>
    if pat ≠ [] ∧ pat.isPrefixOf hay then
      repl ++ pyReplaceFuel fuel pat repl (hay.drop pat.length)
    else
      match hay with
      | [] => []
      | c :: t => c :: pyReplaceFuel fuel pat repl t

/-- Python str.replace (all occurrences, non-empty pattern). -/
def pyReplace (s pat repl : String) : String :=
  ⟨pyReplaceFuel s.toList.length pat.toList repl.toList s.toList⟩

/-! ## UrlMapDocument model

A path rule as the code reads and builds it: the list of path-prefix
strings, the optional urlRewrite fields and the backend-service
reference.  Fetched rules may carry arbitrary values in these fields. -/

/-- One path rule of the URL map document. -/
structure PathRule where
  paths : List String
  pathPrefixRewrite : Option String
  hostRewrite : Option String
  service : String
deriving Repr, DecidableEq

/-- One path matcher: a required name, an optional pathRules key, and
the names of whatever further fields the fetched document carried
(output-only fields among them). -/
structure PathMatcher where
  name : String
  pathRules : Option (List PathRule)
  extra : List String
deriving Repr, DecidableEq

/-- The value found under the top-level id key of a fetched document: a
string, an integer, or some other JSON value (on which Python int()
raises TypeError). -/
inductive JsonId where
  | jstr (s : String)
  | jint (n : Int)
  | jother
deriving Repr, DecidableEq

/-- A fetched URL map document: optional id, the path matchers, and the
names of the remaining top-level fields. -/
structure UrlMap where
  id : Option JsonId
  pathMatchers : List PathMatcher
  extra : List String
deriving Repr, DecidableEq

/-- A document as serialized for write-back: the id, if kept, is a
number. -/
structure StrippedUrlMap where
  id : Option Int
  pathMatchers : List PathMatcher
  extra : List String
deriving Repr, DecidableEq

/-- Digit run to a natural number, or nothing when empty or non-digit. -/
def digitsToNat? (cs : List Char) : Option Nat :=
  if cs ≠ [] ∧ cs.all Char.isDigit then
    some (cs.foldl (fun a c => a * 10 + (c.toNat - 48)) 0)
  else none

/-- Python int() on a string: surrounding whitespace stripped, optional
sign, then digits; anything else raises ValueError (here: nothing). -/
def pyInt? (s : String) : Option Int :=
  match pyStripList s.toList with
  | [] => none
  | c :: rest =>
    if c = '-' then (digitsToNat? rest).map (fun n => -(n : Int))
    else if c = '+' then (digitsToNat? rest).map (fun n => (n : Int))
    else (digitsToNat? (c :: rest)).map (fun n => (n : Int))

/-- The id clean-up of the write-back code: convert to int or drop. -/
def idClean : Option JsonId → Option Int
  | none => none
  | some (JsonId.jint n) => some n
  | some (JsonId.jstr s) => pyInt? s
  | some JsonId.jother => none

/-- The four top-level output-only field names the code deletes. -/
def outputOnlyFields : List String :=
  ["creationTimestamp", "selfLink", "fingerprint", "kind"]

/-- Matcher-level clean-up: the code deletes only the kind field inside
each path matcher. -/
def stripMatcher (pm : PathMatcher) : PathMatcher :=
  { pm with extra := pm.extra.filter (fun f => f ≠ "kind") }

/-- The output-field clean-up performed before serializing the document
for import (shared by add_path_rule and remove_from_loadbalancer). -/
def stripUrlMap (u : UrlMap) : StrippedUrlMap :=
  { id := idClean u.id
  , pathMatchers := u.pathMatchers.map stripMatcher
  , extra := u.extra.filter (fun f => ! outputOnlyFields.contains f) }

/-- The new path rule built by add_path_rule. -/
def newPathRule (gcpProjectId path backendName : String)
    (cloudRunUrl : Option String) : PathRule :=
  { paths := [path, path ++ "/", path ++ "/*"]
  , pathPrefixRewrite := some "/"
  , hostRewrite := cloudRunUrl
  , service := "https://www.googleapis.com/compute/v1/projects/" ++ gcpProjectId
      ++ "/global/backendServices/" ++ backendName }

/-- Appends the rule to the first matcher named path-matcher-1 (the
Python loop breaks after the first hit), creating its pathRules list if
absent; other matchers are untouched. -/
def insertRuleFirstMatch : List PathMatcher → PathRule → List PathMatcher
  | [], _ => []
  | pm :: rest, r =>
    if pm.name = "path-matcher-1" then
      { pm with pathRules := some ((pm.pathRules.getD []) ++ [r]) } :: rest
    else pm :: insertRuleFirstMatch rest r

/-- A rule matches the removal prefix when any of its path strings
starts with it. -/
def rulePathsMatch (path : String) (r : PathRule) : Bool :=
  r.paths.any (fun p => pyStartsWith p path)

/-- The rule-removal loop body of remove_from_loadbalancer: only a
matcher named path-matcher-1 that has a pathRules key gets its rules
filtered. -/
def removeMatcherRules (path : String) (pm : PathMatcher) : PathMatcher :=
  if pm.name = "path-matcher-1" then
    match pm.pathRules with
    | some rs => { pm with pathRules := some (rs.filter (fun r => ! rulePathsMatch path r)) }
    | none => pm
  else pm

/-- The rule-removal phase of remove_from_loadbalancer on the fetched
document, before output-field clean-up. -/
def removePathRules (u : UrlMap) (path : String) : UrlMap :=
  { u with pathMatchers := u.pathMatchers.map (removeMatcherRules path) }

/-- The document remove_from_loadbalancer serializes for write-back. -/
def removePipelineDoc (u : UrlMap) (path : String) : StrippedUrlMap :=
  stripUrlMap (removePathRules u path)

/-- The document add_path_rule serializes for write-back. -/
def addPipelineDoc (gcpProjectId : String) (u : UrlMap) (path backendName : String)
    (cloudRunUrl : Option String) : StrippedUrlMap :=
  stripUrlMap
    { u with pathMatchers :=
        insertRuleFirstMatch u.pathMatchers (newPathRule gcpProjectId path backendName cloudRunUrl) }

/-! ## External-call trace model

Every gcloud invocation the core can issue, tagged by the command it
runs; describe-style commands are read-only, the rest mutate cloud
state. -/

/-- One external gcloud invocation. -/
inductive GCall where
  | negDescribe | negCreate
  | oauthCreate
  | policyDescribe | policyCreate | policyRuleCreate
  | bsDescribe | bsDelete | bsAddBackend | bsUpdatePolicy | bsCreate
  | iapBind
  | runDescribe
  | urlDescribe | urlImport
  | negDelete | policyDelete
deriving Repr, DecidableEq

/-- Whether the call mutates cloud-side state (describe/get probes do
not). -/
def GCall.isMutating : GCall → Bool
  | GCall.negDescribe => false
  | GCall.policyDescribe => false
  | GCall.bsDescribe => false
  | GCall.runDescribe => false
  | GCall.urlDescribe => false
  | _ => true

/-- Mutating sub-trace of a call trace. -/
def mutatingCalls (tr : List GCall) : List GCall :=
  tr.filter GCall.isMutating

/-! ## NEG provisioner (create_serverless_neg) -/

/-- Cloud-side state the NEG provisioner probes: whether the NEG named
project-neg is present in the region. -/
structure NegWorld where
  negPresent : Bool
deriving Repr, DecidableEq

/-- create_serverless_neg: describe the NEG; if present succeed without
mutation, otherwise create it (any create error is fatal). Returns the
result, the call trace and the updated world. -/
def create_serverless_neg (w : NegWorld) (createOk : Bool) :
    Bool × List GCall × NegWorld :=
  if w.negPresent then (true, [GCall.negDescribe], w)
  else if createOk then (true, [GCall.negDescribe, GCall.negCreate], ⟨true⟩)
  else (false, [GCall.negDescribe, GCall.negCreate], w)

/-! ## OAuth client provisioner (create_iap_oauth_client) -/

/-- The value object produced by the OAuth provisioner. -/
structure OAuthClient where
  client_id : String
  client_secret : String
  display_name : String
deriving Repr, DecidableEq

/-- The display name the provisioner assigns. -/
def oauthClientName (cfg : ProjectConfig) : String :=
  "IAP-" ++ cfg.project_name ++ "-backend"

/-- One iteration of the output-parsing loop: a line containing name:
sets the client id to the last slash-segment of the text after the first
name:, otherwise a line containing secret: sets the secret to the
stripped text after the first secret:; later lines overwrite earlier
ones. -/
def parseOAuthLine (st : Option (List Char) × Option (List Char)) (line : List Char) :
    Option (List Char) × Option (List Char) :=
  match splitSecond "name:".toList line with
  | some afterName => (some (splitLastSeg '/' (pyStripList afterName)), st.2)
  | none =>
    match splitSecond "secret:".toList line with
    | some afterSecret => (st.1, some (pyStripList afterSecret))
    | none => st

/-- Parse the CLI output of the oauth-clients create command; both
fields must come out truthy (present and non-empty). -/
def parseOAuthOutput (out : String) : Option (String × String) :=
  let st := (splitOnChar '\n' out.toList).foldl parseOAuthLine (none, none)
  match st with
  | (some cid, some sec) =>
    if cid ≠ [] ∧ sec ≠ [] then some (⟨cid⟩, ⟨sec⟩) else none
  | _ => none

/-- create_iap_oauth_client: always issues the create call (no existence
check); fails when the command fails or when either credential cannot be
parsed from its output. -/
def create_iap_oauth_client (cfg : ProjectConfig) (cmdOk : Bool) (stdout : String) :
    Option OAuthClient :=
  if ¬ cmdOk then none
  else
    match parseOAuthOutput stdout with
    | some (cid, sec) => some ⟨cid, sec, oauthClientName cfg⟩
    | none => none

/-! ## Security policy provisioner (create_security_policy) -/

/-- Cloud-side state the policy provisioner probes. -/
structure PolicyWorld where
  policyPresent : Bool
deriving Repr, DecidableEq

/-- create_security_policy: describe; if the policy is present succeed
without mutation, otherwise create the policy and then its rate-limit
rule (each fatal on error; a failed rule creation still leaves the
policy created). -/
def create_security_policy (w : PolicyWorld) (createOk ruleOk : Bool) :
    Bool × List GCall × PolicyWorld :=
  if w.policyPresent then (true, [GCall.policyDescribe], w)
  else if ¬ createOk then (false, [GCall.policyDescribe, GCall.policyCreate], w)
  else if ¬ ruleOk then
    (false, [GCall.policyDescribe, GCall.policyCreate, GCall.policyRuleCreate], ⟨true⟩)
  else (true, [GCall.policyDescribe, GCall.policyCreate, GCall.policyRuleCreate], ⟨true⟩)

/-! ## Backend service provisioner (create_backend_service) -/

/-- Cloud-side state the backend provisioner probes: existence, whether
the probed backends list is non-empty, and the probed portName field. -/
structure BackendWorld where
  bsPresent : Bool
  backendsNonempty : Bool
  portName : Option String
deriving Repr, DecidableEq

/-- Outcomes of the external commands create_backend_service may run. -/
structure BackendEnv where
  parseOk : Bool
  deleteOk : Bool
  adoptAddOk : Bool
  createOk : Bool
  addOk : Bool
  attachOk : Bool
deriving Repr, DecidableEq

/-- The fresh-creation tail of create_backend_service: create the
service, add the NEG backend, attach the security policy, each fatal on
error. -/
def backendFreshCreation (pre : List GCall) (e : BackendEnv) :
    Bool × List GCall × BackendWorld :=
  if ¬ e.createOk then (false, pre ++ [GCall.bsCreate], ⟨false, false, none⟩)
  else if ¬ e.addOk then
    (false, pre ++ [GCall.bsCreate, GCall.bsAddBackend], ⟨true, false, none⟩)
  else if ¬ e.attachOk then
    (false, pre ++ [GCall.bsCreate, GCall.bsAddBackend, GCall.bsUpdatePolicy], ⟨true, true, none⟩)
  else (true, pre ++ [GCall.bsCreate, GCall.bsAddBackend, GCall.bsUpdatePolicy], ⟨true, true, none⟩)

/-- create_backend_service: describe; on an existing service with
backends attached, adopt with a best-effort (exit-code-ignored) security
policy update; on an existing service with no backends and a portName
set, delete it (fatal on error) and fall through to fresh creation; on
an existing service with no backends and no portName, add the NEG (exit
code checked); on an absent service, fresh creation. -/
def create_backend_service (w : BackendWorld) (e : BackendEnv) :
    Bool × List GCall × BackendWorld :=
  if w.bsPresent then
    if ¬ e.parseOk then (false, [GCall.bsDescribe], w)
    else if ¬ w.backendsNonempty then
      match w.portName with
      | some _ =>
        if ¬ e.deleteOk then (false, [GCall.bsDescribe, GCall.bsDelete], w)
        else backendFreshCreation [GCall.bsDescribe, GCall.bsDelete] e
      | none =>
        if e.adoptAddOk then
          (true, [GCall.bsDescribe, GCall.bsAddBackend], { w with backendsNonempty := true })
        else (false, [GCall.bsDescribe, GCall.bsAddBackend], w)
    else (true, [GCall.bsDescribe, GCall.bsUpdatePolicy], w)
  else backendFreshCreation [GCall.bsDescribe] e

/-! ## IAP grantor and Cloud Run URL lookup -/

/-- grant_iap_access: issues the add-iam-policy-binding call in
non-throwing mode and never inspects its exit code. -/
def grant_iap_access (_exitCode : Int) : Bool × List GCall :=
  (true, [GCall.iapBind])

/-- get_cloud_run_url: describe the Cloud Run service; rawUrl is the
status.url field of the parsed output (nothing on command or parse
failure or a missing field); an empty url yields nothing, otherwise the
scheme is stripped. -/
def get_cloud_run_url (rawUrl : Option String) : Option String × List GCall :=
  (match rawUrl with
   | none => none
   | some u =>
     if u = "" then none
     else some (pyReplace (pyReplace u "https://" "") "http://" ""), [GCall.runDescribe])

/-! ## URL map editing step (add_path_rule) -/

/-- add_path_rule: fetch the document (urlMapDoc is nothing when the
describe command or the JSON parse fails, each fatal), append the new
rule to the first matcher named path-matcher-1, strip output-only
fields, serialize and import (fatal on error).  Returns the result, the
call trace and the document serialized for write-back, when one was. -/
def add_path_rule (cfg : ProjectConfig) (path backendName : String)
    (cloudRunUrl : Option String) (urlMapDoc : Option UrlMap) (importOk : Bool) :
    Bool × List GCall × Option StrippedUrlMap :=
  match urlMapDoc with
  | none => (false, [GCall.urlDescribe], none)
  | some u =>
    let doc := addPipelineDoc cfg.gcp_project_id u path backendName cloudRunUrl
    (importOk, [GCall.urlDescribe, GCall.urlImport], some doc)

/-! ## Orchestrator: add_to_loadbalancer -/

/-- Outcomes of every external interaction one run of
add_to_loadbalancer can perform: the line read at the confirmation
prompt, the probed worlds and command outcomes of each provisioning
step, the raw Cloud Run status url, the fetched URL map document and
the outcome of the url-maps import command. -/
structure AddEnv where
  confirmInput : String
  negWorld : NegWorld
  negCreateOk : Bool
  oauthCmdOk : Bool
  oauthStdout : String
  policyWorld : PolicyWorld
  policyCreateOk : Bool
  policyRuleOk : Bool
  backendWorld : BackendWorld
  backendEnv : BackendEnv
  iapExit : Int
  runUrl : Option String
  urlMapDoc : Option UrlMap
  importOk : Bool
deriving Repr, DecidableEq

/-- Result of one run of add_to_loadbalancer: the returned flag, whether
the confirmation prompt was reached, the external calls issued in order,
the URL map document serialized for import when one was, and the
manifest after the run. -/
structure AddResult where
  ok : Bool
  prompted : Bool
  calls : List GCall
  imported : Option StrippedUrlMap
  manifest : Manifest
deriving Repr, DecidableEq

/-- The affirmative test of the additive confirmation prompt: the
lowercased input must be y or yes. -/
def addConfirmOk (input : String) : Bool :=
  pyLower input = "y" ∨ pyLower input = "yes"

/-- The path default of add_to_loadbalancer: the argument, else
/project-name. -/
def defaultPath (cfg : ProjectConfig) (pathArg : Option String) : String :=
  pyOrStr pathArg ("/" ++ cfg.project_name)

/-- The backend service name, project-name-backend. -/
def backendNameOf (cfg : ProjectConfig) : String :=
  cfg.project_name ++ "-backend"

/-- add_to_loadbalancer: resolve defaults, require the deployed state
flag, prompt for confirmation, then run the seven steps (NEG, OAuth
client, security policy, backend service, IAP grant, optional Cloud Run
hostname resolution, URL map path rule) in order, aborting at the first
failure; on full success update the manifest.  The resolved region and
Cloud Run service name feed only argument vectors of the recorded
calls, which the trace abstraction does not carry, so those two
arguments do not influence the result (their resolution is kept in
resolveRegion and pyOrStr). -/
def add_to_loadbalancer (cfg : ProjectConfig) (m : Manifest)
    (pathArg _regionArg _serviceArg : Option String) (useHostRewrite : Bool)
    (e : AddEnv) : AddResult :=
  let path := defaultPath cfg pathArg
  let backendName := backendNameOf cfg
  if ¬ m.getState "deployed" then ⟨false, false, [], none, m⟩
  else if ¬ addConfirmOk e.confirmInput then ⟨false, true, [], none, m⟩
  else
    match create_serverless_neg e.negWorld e.negCreateOk with
    | (false, tr1, _) => ⟨false, true, tr1, none, m⟩
    | (true, tr1, _) =>
      match create_iap_oauth_client cfg e.oauthCmdOk e.oauthStdout with
      | none => ⟨false, true, tr1 ++ [GCall.oauthCreate], none, m⟩
      | some oc =>
        let tr2 := tr1 ++ [GCall.oauthCreate]
        match create_security_policy e.policyWorld e.policyCreateOk e.policyRuleOk with
        | (false, tr3, _) => ⟨false, true, tr2 ++ tr3, none, m⟩
        | (true, tr3, _) =>
          match create_backend_service e.backendWorld e.backendEnv with
          | (false, tr4, _) => ⟨false, true, tr2 ++ tr3 ++ tr4, none, m⟩
          | (true, tr4, _) =>
            match grant_iap_access e.iapExit with
            | (false, tr5) => ⟨false, true, tr2 ++ tr3 ++ tr4 ++ tr5, none, m⟩
            | (true, tr5) =>
              let resolved :=
                if useHostRewrite then get_cloud_run_url e.runUrl else (none, [])
              let tr6 := tr2 ++ tr3 ++ tr4 ++ tr5 ++ resolved.2
              match add_path_rule cfg path backendName resolved.1 e.urlMapDoc e.importOk with
              | (false, tr7, doc) => ⟨false, true, tr6 ++ tr7, doc, m⟩
              | (true, tr7, doc) =>
                let m4 := ((((m.updateState "loadbalancer_configured" true
                  ).updateConfig "loadbalancer_path" (some path)
                  ).updateConfig "loadbalancer_url" (some ("https://" ++ DOMAIN ++ path))
                  ).logOperation "loadbalancer_add"
                    [("path", path), ("backend_name", backendName),
                     ("oauth_client", oc.display_name), ("domain", DOMAIN)])
                ⟨true, true, tr6 ++ tr7, doc, m4⟩

/-- The region default resolution of add_to_loadbalancer (the regionArg,
else the manifest region config, else the configured default); the
resolved region feeds only external command arguments, which the call
trace does not record, so it is kept as a standalone definition. -/
def resolveRegion (cfg : ProjectConfig) (m : Manifest) (regionArg : Option String) : String :=
  pyOrStr regionArg (pyOrStr (m.getConfig "region") cfg.default_region)

/-! ## Orchestrator: remove_from_loadbalancer -/

/-- Outcomes of the external interactions of remove_from_loadbalancer:
the confirmation line and the fetched URL map document (nothing when the
describe or the parse fails).  The import and the three delete commands
run with their outcomes ignored, so they need no environment fields. -/
structure RemoveEnv where
  confirmInput : String
  urlMapDoc : Option UrlMap
deriving Repr, DecidableEq

/-- Result of one run of remove_from_loadbalancer. -/
structure RemoveResult where
  ok : Bool
  prompted : Bool
  calls : List GCall
  imported : Option StrippedUrlMap
  manifest : Manifest
deriving Repr, DecidableEq

/-- The affirmative test of the destructive confirmation prompt: the
lowercased input must be exactly yes. -/
def removeConfirmOk (input : String) : Bool :=
  pyLower input = "yes"

/-- The path default of remove_from_loadbalancer: the argument, else
the manifest loadbalancer_path config, else /project-name. -/
def removePathOf (cfg : ProjectConfig) (m : Manifest) (pathArg : Option String) : String :=
  pyOrStr pathArg (pyOrStr (m.getConfig "loadbalancer_path") ("/" ++ cfg.project_name))

/-- remove_from_loadbalancer: resolve the path, prompt (unless told to
skip) requiring the strict affirmative, then run the best-effort
teardown: URL map rule removal (describe, filter, strip, import — any
failure absorbed as a warning), backend-service delete, NEG delete and
security-policy delete (exit codes ignored), and always update the
manifest at the end. -/
def remove_from_loadbalancer (cfg : ProjectConfig) (m : Manifest)
    (pathArg : Option String) (skipConfirmation : Bool) (e : RemoveEnv) : RemoveResult :=
  let path := removePathOf cfg m pathArg
  let backendName := backendNameOf cfg
  if ¬ skipConfirmation ∧ ¬ removeConfirmOk e.confirmInput then
    ⟨false, true, [], none, m⟩
  else
    let urlPhase : List GCall × Option StrippedUrlMap :=
      match e.urlMapDoc with
      | none => ([GCall.urlDescribe], none)
      | some u => ([GCall.urlDescribe, GCall.urlImport], some (removePipelineDoc u path))
    let m4 := ((((m.updateState "loadbalancer_configured" false
      ).updateConfig "loadbalancer_path" none
      ).updateConfig "loadbalancer_url" none
      ).logOperation "loadbalancer_remove"
        [("path", path), ("backend_name", backendName)])
    ⟨true, ! skipConfirmation,
      urlPhase.1 ++ [GCall.bsDelete, GCall.negDelete, GCall.policyDelete],
      urlPhase.2, m4⟩

/-! ## Sequential short-circuit composition, for stating the
orchestration claims -/

/-- Runs a list of (outcome, trace) steps in order, stopping at the
first failing step; yields the overall outcome and the concatenated
trace of the steps that ran. -/
def runSeq : List (Bool × List GCall) → Bool × List GCall
  | [] => (true, [])
  | (ok, tr) :: rest =>
    if ok then
      let r := runSeq rest
      (r.1, tr ++ r.2)
    else (false, tr)

/-- The seven provisioning steps of add_to_loadbalancer, in the order
the spec states, each as its outcome and call trace under environment e
(the hostname-resolution step appears only when host rewrite is on, and
it never fails). -/
def addSteps (cfg : ProjectConfig) (path backendName : String)
    (useHostRewrite : Bool) (e : AddEnv) : List (Bool × List GCall) :=
  let s1 := create_serverless_neg e.negWorld e.negCreateOk
  let s3 := create_security_policy e.policyWorld e.policyCreateOk e.policyRuleOk
  let s4 := create_backend_service e.backendWorld e.backendEnv
  let s5 := grant_iap_access e.iapExit
  let resolved := if useHostRewrite then get_cloud_run_url e.runUrl else (none, [])
  let s7 := add_path_rule cfg path backendName resolved.1 e.urlMapDoc e.importOk
  [(s1.1, s1.2.1),
   ((create_iap_oauth_client cfg e.oauthCmdOk e.oauthStdout).isSome, [GCall.oauthCreate]),
   (s3.1, s3.2.1),
   (s4.1, s4.2.1),
   (s5.1, s5.2)]
  ++ (if useHostRewrite then [(true, resolved.2)] else [])
  ++ [(s7.1, s7.2.1)]

/-- The manifest add_to_loadbalancer writes on full success. -/
def addSuccessManifest (m : Manifest) (path backendName displayName : String) : Manifest :=
  ((((m.updateState "loadbalancer_configured" true
    ).updateConfig "loadbalancer_path" (some path)
    ).updateConfig "loadbalancer_url" (some ("https://" ++ DOMAIN ++ path))
    ).logOperation "loadbalancer_add"
      [("path", path), ("backend_name", backendName),
       ("oauth_client", displayName), ("domain", DOMAIN)])

/-- The manifest remove_from_loadbalancer always writes at the end. -/
def removeEndManifest (m : Manifest) (path backendName : String) : Manifest :=
  ((((m.updateState "loadbalancer_configured" false
    ).updateConfig "loadbalancer_path" none
    ).updateConfig "loadbalancer_url" none
    ).logOperation "loadbalancer_remove"
      [("path", path), ("backend_name", backendName)])

/-! ## Concrete artifacts used by counterexamples and witnesses -/

/-- A rule whose first path string starts with /x. -/
def exRuleX : PathRule := ⟨["/x", "/x/", "/x/*"], some "/", none, "svcX"⟩

/-- A matcher not named path-matcher-1 holding a rule for /x. -/
def exMatcherLegacy : PathMatcher := ⟨"legacy-matcher", some [exRuleX], ["kind"]⟩

/-- A document whose only matcher is not the active one. -/
def exDocLegacy : UrlMap := ⟨some (JsonId.jstr "123"), [exMatcherLegacy], ["kind", "selfLink"]⟩

/-- An active matcher carrying a fingerprint field. -/
def exMatcherFP : PathMatcher := ⟨"path-matcher-1", some [exRuleX], ["fingerprint", "kind"]⟩

/-- A document whose active matcher carries a fingerprint field. -/
def exDocFP : UrlMap := ⟨some (JsonId.jstr "987"), [exMatcherFP], ["creationTimestamp"]⟩

/-- A concrete project configuration. -/
def exCfg : ProjectConfig := ⟨"acme", "acme-proj", "europe-west4"⟩

/-- A manifest recording a deployed service. -/
def exManifestDeployed : Manifest :=
  ⟨[("deployed", true)], [("region", some "europe-west4")], []⟩

/-- A manifest with no deployed flag at all. -/
def exManifestFresh : Manifest := ⟨[], [], []⟩

/-- A well-formed output of the oauth-clients create command. -/
def exOAuthOut : String :=
  "name: projects/p/brands/b/identityAwareProxyClients/abc123\nsecret: s3cret99"

/-- An environment in which every step of add_to_loadbalancer succeeds,
confirmed with the lenient y. -/
def exAddEnvOk : AddEnv :=
  { confirmInput := "y"
  , negWorld := ⟨false⟩
  , negCreateOk := true
  , oauthCmdOk := true
  , oauthStdout := exOAuthOut
  , policyWorld := ⟨false⟩
  , policyCreateOk := true
  , policyRuleOk := true
  , backendWorld := ⟨false, false, none⟩
  , backendEnv := ⟨true, true, true, true, true, true⟩
  , iapExit := 0
  , runUrl := some "https://acme-abc.a.run.app"
  , urlMapDoc := some exDocLegacy
  , importOk := true }

/-- The adopt-branch backend world: service present, backends attached. -/
def exAdoptWorld : BackendWorld := ⟨true, true, none⟩

/-- The poisoned backend world: service present, no backends, portName
set. -/
def exPoisonedWorld : BackendWorld := ⟨true, false, some "http"⟩

/-- A backend environment in which every command succeeds. -/
def exBackendEnvOk : BackendEnv := ⟨true, true, true, true, true, true⟩

end BffLB

namespace BffLB

/-! ## Helper lemmas -/

/-- A run against a manifest without the deployed flag stops before the
prompt and before any external call. -/
lemma add_not_deployed (cfg : ProjectConfig) (m : Manifest)
    (pArg rArg sArg : Option String) (hr : Bool) (e : AddEnv)
    (hd : m.getState "deployed" = false) :
    add_to_loadbalancer cfg m pArg rArg sArg hr e = ⟨false, false, [], none, m⟩ := by
  simp [add_to_loadbalancer, hd]

/-- A non-affirmative answer at the additive prompt aborts with no
external call and no manifest change. -/
lemma add_not_confirmed (cfg : ProjectConfig) (m : Manifest)
    (pArg rArg sArg : Option String) (hr : Bool) (e : AddEnv)
    (hd : m.getState "deployed" = true) (hc : addConfirmOk e.confirmInput = false) :
    add_to_loadbalancer cfg m pArg rArg sArg hr e = ⟨false, true, [], none, m⟩ := by
  simp [add_to_loadbalancer, hd, hc]

/-- Master characterization of a confirmed add_to_loadbalancer run: it
behaves as the sequential short-circuit composition of the seven steps,
leaves the manifest alone on failure, and writes the success manifest
and imports the patched document on success. -/
lemma add_confirmed_spec (cfg : ProjectConfig) (m : Manifest)
    (pArg rArg sArg : Option String) (hr : Bool) (e : AddEnv)
    (hd : m.getState "deployed" = true) (hc : addConfirmOk e.confirmInput = true) :
    (add_to_loadbalancer cfg m pArg rArg sArg hr e).prompted = true ∧
    (add_to_loadbalancer cfg m pArg rArg sArg hr e).ok =
      (runSeq (addSteps cfg (defaultPath cfg pArg) (backendNameOf cfg) hr e)).1 ∧
    (add_to_loadbalancer cfg m pArg rArg sArg hr e).calls =
      (runSeq (addSteps cfg (defaultPath cfg pArg) (backendNameOf cfg) hr e)).2 ∧
    ((add_to_loadbalancer cfg m pArg rArg sArg hr e).ok = false →
      (add_to_loadbalancer cfg m pArg rArg sArg hr e).manifest = m) ∧
    ((add_to_loadbalancer cfg m pArg rArg sArg hr e).ok = true →
      e.importOk = true ∧
      (∀ oc, create_iap_oauth_client cfg e.oauthCmdOk e.oauthStdout = some oc →
        (add_to_loadbalancer cfg m pArg rArg sArg hr e).manifest =
          addSuccessManifest m (defaultPath cfg pArg) (backendNameOf cfg) oc.display_name) ∧
      (∀ u, e.urlMapDoc = some u →
        (add_to_loadbalancer cfg m pArg rArg sArg hr e).imported =
          some (addPipelineDoc cfg.gcp_project_id u (defaultPath cfg pArg) (backendNameOf cfg)
            (if hr then (get_cloud_run_url e.runUrl).1 else none)))) := by
  rcases h1 : create_serverless_neg e.negWorld e.negCreateOk with ⟨ok1, tr1, w1⟩
  rcases ho : create_iap_oauth_client cfg e.oauthCmdOk e.oauthStdout with _ | oc <;>
  rcases h3 : create_security_policy e.policyWorld e.policyCreateOk e.policyRuleOk with ⟨ok3, tr3, w3⟩ <;>
  rcases h4 : create_backend_service e.backendWorld e.backendEnv with ⟨ok4, tr4, w4⟩ <;>
  rcases hu : e.urlMapDoc with _ | u <;>
  cases ok1 <;> cases ok3 <;> cases ok4 <;> cases hio : e.importOk <;> cases hr <;>
    simp [add_to_loadbalancer, addSteps, runSeq, h1, ho, h3, h4, hu, hio, hd, hc,
      grant_iap_access, add_path_rule, addSuccessManifest, List.append_assoc]

/-- Master characterization of remove_from_loadbalancer: strict-prompt
abort, and the unconditional best-effort teardown with the final
manifest update once confirmation is passed or skipped. -/
lemma remove_spec (cfg : ProjectConfig) (m : Manifest)
    (pathArg : Option String) (skip : Bool) (e : RemoveEnv) :
    (skip = false → removeConfirmOk e.confirmInput = false →
      remove_from_loadbalancer cfg m pathArg skip e = ⟨false, true, [], none, m⟩) ∧
    (skip = true ∨ removeConfirmOk e.confirmInput = true →
      (remove_from_loadbalancer cfg m pathArg skip e).ok = true ∧
      (remove_from_loadbalancer cfg m pathArg skip e).prompted = ! skip ∧
      (remove_from_loadbalancer cfg m pathArg skip e).manifest =
        removeEndManifest m (removePathOf cfg m pathArg) (backendNameOf cfg) ∧
      (e.urlMapDoc = none →
        (remove_from_loadbalancer cfg m pathArg skip e).calls =
          [GCall.urlDescribe, GCall.bsDelete, GCall.negDelete, GCall.policyDelete]) ∧
      (∀ u, e.urlMapDoc = some u →
        (remove_from_loadbalancer cfg m pathArg skip e).calls =
          [GCall.urlDescribe, GCall.urlImport,
           GCall.bsDelete, GCall.negDelete, GCall.policyDelete] ∧
        (remove_from_loadbalancer cfg m pathArg skip e).imported =
          some (removePipelineDoc u (removePathOf cfg m pathArg)))) := by
  cases skip <;> by_cases hcf : removeConfirmOk e.confirmInput <;>
    rcases hu : e.urlMapDoc with _ | u <;>
      simp [remove_from_loadbalancer, hcf, hu, removeEndManifest]

/-- When no matcher bears the fixed name, the insertion loop of
add_path_rule leaves the matcher list unchanged. -/
lemma insertRuleFirstMatch_no_match (ms : List PathMatcher) (r : PathRule)
    (h : ∀ pm ∈ ms, pm.name ≠ "path-matcher-1") :
    insertRuleFirstMatch ms r = ms := by
  induction ms with
  | nil => rfl
  | cons pm rest ih =>
    rw [insertRuleFirstMatch, if_neg (h pm (List.mem_cons_self pm rest))]
    rw [ih (fun q hq => h q (List.mem_cons_of_mem pm hq))]

/-- Membership in the stripped top-level extra fields. -/
lemma mem_stripUrlMap_extra (u : UrlMap) (f : String) :
    f ∈ (stripUrlMap u).extra ↔ f ∈ u.extra ∧ f ∉ outputOnlyFields := by
  simp [stripUrlMap, List.mem_filter]

/-- Reading a state flag is unaffected by config updates. -/
lemma getState_updateConfig (m : Manifest) (k : String) (v : Option String) (q : String) :
    (m.updateConfig k v).getState q = m.getState q := rfl

/-- Reading a state flag is unaffected by log appends. -/
lemma getState_logOperation (m : Manifest) (op : String)
    (d : List (String × String)) (q : String) :
    (m.logOperation op d).getState q = m.getState q := rfl

/-- A freshly written state flag reads back. -/
lemma getState_updateState_self (m : Manifest) (k : String) (v : Bool) :
    (m.updateState k v).getState k = v := by
  simp [Manifest.updateState, Manifest.getState, List.find?]

/-- Every matcher of a stripped document has lost its kind field. -/
lemma stripUrlMap_matcher_no_kind (u : UrlMap) (pm : PathMatcher)
    (h : pm ∈ (stripUrlMap u).pathMatchers) : "kind" ∉ pm.extra := by
  simp only [stripUrlMap, List.mem_map] at h
  obtain ⟨pm0, _, rfl⟩ := h
  simp [stripMatcher, List.mem_filter]

/-- The NEG provisioner trace is one of two literal shapes. -/
lemma create_serverless_neg_trace (w : NegWorld) (k : Bool) :
    (create_serverless_neg w k).2.1 = [GCall.negDescribe] ∨
    (create_serverless_neg w k).2.1 = [GCall.negDescribe, GCall.negCreate] := by
  cases hp : w.negPresent <;> cases k <;> simp [create_serverless_neg, hp]

/-- The policy provisioner trace never ends in the IAP bind call and is
never empty. -/
lemma create_security_policy_trace (w : PolicyWorld) (c rk : Bool) :
    (create_security_policy w c rk).2.1.getLast? ≠ some GCall.iapBind ∧
    (create_security_policy w c rk).2.1 ≠ [] := by
  cases hp : w.policyPresent <;> cases c <;> cases rk <;>
    simp [create_security_policy, hp]

/-- The backend provisioner trace never ends in the IAP bind call and is
never empty. -/
lemma create_backend_service_trace (w : BackendWorld) (e : BackendEnv) :
    (create_backend_service w e).2.1.getLast? ≠ some GCall.iapBind ∧
    (create_backend_service w e).2.1 ≠ [] := by
  rcases w with ⟨bs, bne, pn⟩
  rcases e with ⟨p, d, a, c, ad, at'⟩
  cases bs <;> cases bne <;> rcases pn with _ | s <;>
    cases p <;> cases d <;> cases a <;> cases c <;> cases ad <;> cases at' <;>
      simp [create_backend_service, backendFreshCreation]

/-- The manifest written on add success reads back the configured flag. -/
lemma addSuccessManifest_getState (m : Manifest) (path bn dn : String) :
    (addSuccessManifest m path bn dn).getState "loadbalancer_configured" = true := by
  simp [addSuccessManifest, Manifest.logOperation, Manifest.updateConfig,
    Manifest.updateState, Manifest.getState, List.find?]

/-! ## Claim theorems -/

/-- C3 (counterexample): on a document whose only matcher is named
legacy-matcher, the removal phase for prefix /x leaves the matching rule
in place (and in fact leaves the document untouched), refuting the
claim that matching rules are filtered across all path matchers
unconditionally. -/
theorem C3_counterexample :
    removePathRules exDocLegacy "/x" = exDocLegacy ∧
    (removePathRules exDocLegacy "/x").pathMatchers.any
      (fun pm => (pm.pathRules.getD []).any (rulePathsMatch "/x")) = true := by
  decide

/-- C3 (amended): the rule-removal phase of remove_from_loadbalancer
filters, within every matcher named path-matcher-1 that has a pathRules
key, exactly the rules one of whose path strings starts with the prefix
(keeping the non-matching rules in their original order), and leaves
every other matcher — and the rest of the document — unchanged. -/
theorem C3_remove_rule_filtering (u : UrlMap) (p : String) :
    (removePathRules u p).id = u.id ∧
    (removePathRules u p).extra = u.extra ∧
    List.Forall₂ (fun pm pm' =>
        pm'.name = pm.name ∧ pm'.extra = pm.extra ∧
        (pm.name ≠ "path-matcher-1" → pm' = pm) ∧
        (pm.pathRules = none → pm' = pm) ∧
        (∀ rs, pm.name = "path-matcher-1" → pm.pathRules = some rs →
          ∃ rs', pm'.pathRules = some rs' ∧
            List.Sublist rs' rs ∧
            (∀ r, r ∈ rs' ↔ (r ∈ rs ∧ rulePathsMatch p r = false))))
      u.pathMatchers (removePathRules u p).pathMatchers := by
  refine ⟨rfl, rfl, ?_⟩
  show List.Forall₂ _ u.pathMatchers (u.pathMatchers.map (removeMatcherRules p))
  rw [List.forall₂_map_right_iff]
  refine List.forall₂_same.mpr ?_
  intro pm _
  by_cases hn : pm.name = "path-matcher-1"
  · cases hrs : pm.pathRules with
    | none =>
      have he : removeMatcherRules p pm = pm := by
        unfold removeMatcherRules
        rw [if_pos hn, hrs]
      rw [he]
      exact ⟨rfl, rfl, fun _ => rfl, fun _ => rfl,
        fun rs _ h => Option.noConfusion h⟩
    | some rs =>
      have he : removeMatcherRules p pm =
          { pm with pathRules := some (rs.filter (fun r => ! rulePathsMatch p r)) } := by
        unfold removeMatcherRules
        rw [if_pos hn, hrs]
      rw [he]
      refine ⟨rfl, rfl, fun h => absurd hn h,
        fun h => Option.noConfusion h, ?_⟩
      intro rs0 _ h
      injection h with h
      subst h
      exact ⟨_, rfl, List.filter_sublist _, fun r => by simp [List.mem_filter]⟩
  · have he : removeMatcherRules p pm = pm := by
      unfold removeMatcherRules
      rw [if_neg hn]
    rw [he]
    exact ⟨rfl, rfl, fun _ => rfl, fun _ => rfl, fun rs h _ => absurd h hn⟩

/-- C3 (witness for the amended theorem): the filtering law applied to
the concrete legacy document and prefix /x. -/
theorem C3_remove_rule_filtering_witness :
    (removePathRules exDocLegacy "/x").extra = exDocLegacy.extra :=
  (C3_remove_rule_filtering exDocLegacy "/x").2.1

/-- C1: a run of add_to_loadbalancer that passes the deployed gate and
the confirmation prompt behaves exactly as the sequential short-circuit
composition (runSeq) of the seven provisioning steps in the stated
order (NEG, OAuth client, security policy, backend service, IAP grant,
optional Cloud Run hostname resolution, URL-map path rule): it returns
success iff every step succeeds, its call trace is the concatenation of
the traces of the steps up to and including the first failing one, a
failing run leaves the manifest untouched, and a successful run writes
exactly the success manifest (configured flag true, path and public URL
configs, one appended log entry with path, backend name, OAuth display
name and domain) and imports the patched document. -/
theorem C1_add_orchestration (cfg : ProjectConfig) (m : Manifest)
    (pArg rArg sArg : Option String) (hr : Bool) (e : AddEnv)
    (hd : m.getState "deployed" = true) (hc : addConfirmOk e.confirmInput = true) :
    (add_to_loadbalancer cfg m pArg rArg sArg hr e).prompted = true ∧
    (add_to_loadbalancer cfg m pArg rArg sArg hr e).ok =
      (runSeq (addSteps cfg (defaultPath cfg pArg) (backendNameOf cfg) hr e)).1 ∧
    (add_to_loadbalancer cfg m pArg rArg sArg hr e).calls =
      (runSeq (addSteps cfg (defaultPath cfg pArg) (backendNameOf cfg) hr e)).2 ∧
    ((add_to_loadbalancer cfg m pArg rArg sArg hr e).ok = false →
      (add_to_loadbalancer cfg m pArg rArg sArg hr e).manifest = m) ∧
    ((add_to_loadbalancer cfg m pArg rArg sArg hr e).ok = true →
      e.importOk = true ∧
      (∀ oc, create_iap_oauth_client cfg e.oauthCmdOk e.oauthStdout = some oc →
        (add_to_loadbalancer cfg m pArg rArg sArg hr e).manifest =
          addSuccessManifest m (defaultPath cfg pArg) (backendNameOf cfg) oc.display_name) ∧
      (∀ u, e.urlMapDoc = some u →
        (add_to_loadbalancer cfg m pArg rArg sArg hr e).imported =
          some (addPipelineDoc cfg.gcp_project_id u (defaultPath cfg pArg) (backendNameOf cfg)
            (if hr then (get_cloud_run_url e.runUrl).1 else none)))) :=
  add_confirmed_spec cfg m pArg rArg sArg hr e hd hc

/-- C1 (witness): the orchestration law applied to a concrete deployed
manifest, lenient confirmation and an all-success environment. -/
theorem C1_add_orchestration_witness :
    (add_to_loadbalancer exCfg exManifestDeployed none none none true exAddEnvOk).prompted =
      true :=
  (C1_add_orchestration exCfg exManifestDeployed none none none true exAddEnvOk
    (by decide) (by decide)).1

/-- C2: whenever the manifest deployed flag is false or absent,
add_to_loadbalancer fails immediately: no external call at all (so in
particular no mutating one), no prompt, and an unchanged manifest, for
every combination of the optional path, region and service arguments. -/
theorem C2_requires_deployed (cfg : ProjectConfig) (m : Manifest)
    (pArg rArg sArg : Option String) (hr : Bool) (e : AddEnv)
    (hd : m.getState "deployed" = false) :
    add_to_loadbalancer cfg m pArg rArg sArg hr e = ⟨false, false, [], none, m⟩ ∧
    mutatingCalls (add_to_loadbalancer cfg m pArg rArg sArg hr e).calls = [] := by
  have h := add_not_deployed cfg m pArg rArg sArg hr e hd
  exact ⟨h, by rw [h]; rfl⟩

/-- C2 (witness): the immediate failure on a fresh manifest with no
deployed flag at all. -/
theorem C2_requires_deployed_witness :
    add_to_loadbalancer exCfg exManifestFresh none none none true exAddEnvOk =
      ⟨false, false, [], none, exManifestFresh⟩ :=
  (C2_requires_deployed exCfg exManifestFresh none none none true exAddEnvOk (by decide)).1

/-- C4 (counterexample): the destructive prompt is not the strict
string yes — the code lowercases the input first, so the input Yes,
which differs from the literal yes, still proceeds to the deletion
calls. -/
theorem C4_counterexample :
    (remove_from_loadbalancer exCfg exManifestDeployed none false ⟨"Yes", none⟩).ok = true ∧
    (remove_from_loadbalancer exCfg exManifestDeployed none false ⟨"Yes", none⟩).calls ≠ [] ∧
    ("Yes" : String) ≠ "yes" := by
  decide

/-- C4 (amended): the two prompts enforce two distinct affirmative
policies, both case-insensitive: add_to_loadbalancer proceeds exactly
when the lowercased input is y or yes and otherwise aborts with no
external call and an unchanged manifest; remove_from_loadbalancer with
skip_confirmation false proceeds exactly when the lowercased input is
yes (so y aborts without any deletion call or manifest write, while yes
proceeds) and otherwise returns failure. -/
theorem C4_confirmation_policies :
    (∀ (cfg : ProjectConfig) (m : Manifest) (pArg rArg sArg : Option String)
        (hr : Bool) (e : AddEnv), m.getState "deployed" = true →
      (addConfirmOk e.confirmInput = false →
        add_to_loadbalancer cfg m pArg rArg sArg hr e = ⟨false, true, [], none, m⟩) ∧
      (addConfirmOk e.confirmInput = true →
        (add_to_loadbalancer cfg m pArg rArg sArg hr e).calls ≠ [])) ∧
    (∀ (cfg : ProjectConfig) (m : Manifest) (pArg : Option String) (e : RemoveEnv),
      (removeConfirmOk e.confirmInput = false →
        remove_from_loadbalancer cfg m pArg false e = ⟨false, true, [], none, m⟩) ∧
      (removeConfirmOk e.confirmInput = true →
        (remove_from_loadbalancer cfg m pArg false e).ok = true ∧
        (remove_from_loadbalancer cfg m pArg false e).calls ≠ [])) ∧
    addConfirmOk "y" = true ∧ addConfirmOk "YES" = true ∧ addConfirmOk "no" = false ∧
    removeConfirmOk "y" = false ∧ removeConfirmOk "yes" = true := by
  refine ⟨?_, ?_, by decide, by decide, by decide, by decide, by decide⟩
  · intro cfg m pArg rArg sArg hr e hd
    refine ⟨fun hc => add_not_confirmed cfg m pArg rArg sArg hr e hd hc, fun hc => ?_⟩
    rw [(add_confirmed_spec cfg m pArg rArg sArg hr e hd hc).2.2.1]
    rcases h1 : create_serverless_neg e.negWorld e.negCreateOk with ⟨ok1, tr1, w1⟩
    have htr : tr1 ≠ [] := by
      rcases create_serverless_neg_trace e.negWorld e.negCreateOk with h | h <;>
        rw [h1] at h <;> simp_all
    simp only [addSteps, h1]
    cases ok1 <;> simp [runSeq, htr]
  · intro cfg m pArg e
    refine ⟨fun hc => (remove_spec cfg m pArg false e).1 rfl hc, fun hc => ?_⟩
    have h := (remove_spec cfg m pArg false e).2 (Or.inr hc)
    refine ⟨h.1, ?_⟩
    rcases hu : e.urlMapDoc with _ | u
    · rw [h.2.2.2.1 hu]; simp
    · rw [(h.2.2.2.2 u hu).1]; simp

/-- C4 (witness): the spec scenario — input y at the destructive prompt
aborts with no deletion call and no manifest write. -/
theorem C4_confirmation_policies_witness :
    remove_from_loadbalancer exCfg exManifestDeployed none false ⟨"y", none⟩ =
      ⟨false, true, [], none, exManifestDeployed⟩ :=
  (C4_confirmation_policies.2.1 exCfg exManifestDeployed none ⟨"y", none⟩).1 (by decide)

/-- C5 (counterexample): the backend-service provisioner in its adopt
branch is not mutation-free on the second invocation: every run in the
adopt state issues the best-effort security-policy update, which is a
mutating call. -/
theorem C5_counterexample :
    (create_backend_service exAdoptWorld exBackendEnvOk).1 = true ∧
    mutatingCalls ((create_backend_service
      ((create_backend_service exAdoptWorld exBackendEnvOk).2.2) exBackendEnvOk).2.1) ≠ [] := by
  decide

/-- C5 (amended): the NEG and security-policy provisioners are
idempotent as claimed — after a successful run, a second run with the
same inputs succeeds with zero mutating calls, performing only the
read-only probe; the backend-service provisioner in its adopt branch
(service present, probed backends non-empty, probe parse succeeding)
succeeds on both runs but issues exactly one mutating call on the
second run, the best-effort exit-code-ignored security-policy update. -/
theorem C5_provisioner_idempotence :
    (∀ (w : NegWorld) (k : Bool), (create_serverless_neg w k).1 = true →
      (create_serverless_neg ((create_serverless_neg w k).2.2) k).1 = true ∧
      mutatingCalls ((create_serverless_neg ((create_serverless_neg w k).2.2) k).2.1) = []) ∧
    (∀ (w : PolicyWorld) (c rk : Bool), (create_security_policy w c rk).1 = true →
      (create_security_policy ((create_security_policy w c rk).2.2) c rk).1 = true ∧
      mutatingCalls
        ((create_security_policy ((create_security_policy w c rk).2.2) c rk).2.1) = []) ∧
    (∀ (w : BackendWorld) (e : BackendEnv),
      w.bsPresent = true → w.backendsNonempty = true → e.parseOk = true →
      create_backend_service w e = (true, [GCall.bsDescribe, GCall.bsUpdatePolicy], w) ∧
      mutatingCalls ((create_backend_service
        ((create_backend_service w e).2.2) e).2.1) = [GCall.bsUpdatePolicy]) := by
  refine ⟨?_, ?_, ?_⟩
  · intro w k h
    cases hp : w.negPresent <;> cases k <;>
      simp_all [create_serverless_neg, mutatingCalls, GCall.isMutating]
  · intro w c rk h
    cases hp : w.policyPresent <;> cases c <;> cases rk <;>
      simp_all [create_security_policy, mutatingCalls, GCall.isMutating]
  · intro w e hbs hbn hp
    have h : create_backend_service w e =
        (true, [GCall.bsDescribe, GCall.bsUpdatePolicy], w) := by
      simp [create_backend_service, hbs, hbn, hp]
    refine ⟨h, ?_⟩
    rw [h, h]
    rfl

/-- C5 (witness): the NEG idempotence law at a concrete world where the
NEG is already present. -/
theorem C5_provisioner_idempotence_witness :
    mutatingCalls ((create_serverless_neg
      ((create_serverless_neg ⟨true⟩ true).2.2) true).2.1) = [] :=
  (C5_provisioner_idempotence.1 ⟨true⟩ true (by decide)).2

/-- C6: on a probed backend service with empty backends and a set
portName, and all commands succeeding, create_backend_service issues
exactly one delete followed by the fresh-creation sequence — create,
attach NEG, attach security policy — four mutating calls in that order
(after the read-only probe), and returns success. -/
theorem C6_poisoned_state_recovery (w : BackendWorld) (e : BackendEnv) (p : String)
    (hbs : w.bsPresent = true) (hbn : w.backendsNonempty = false)
    (hpn : w.portName = some p) (hp : e.parseOk = true) (hdel : e.deleteOk = true)
    (hcr : e.createOk = true) (hadd : e.addOk = true) (hat : e.attachOk = true) :
    create_backend_service w e =
      (true, [GCall.bsDescribe, GCall.bsDelete, GCall.bsCreate,
              GCall.bsAddBackend, GCall.bsUpdatePolicy], ⟨true, true, none⟩) ∧
    mutatingCalls (create_backend_service w e).2.1 =
      [GCall.bsDelete, GCall.bsCreate, GCall.bsAddBackend, GCall.bsUpdatePolicy] := by
  have h : create_backend_service w e =
      (true, [GCall.bsDescribe, GCall.bsDelete, GCall.bsCreate,
              GCall.bsAddBackend, GCall.bsUpdatePolicy], ⟨true, true, none⟩) := by
    simp [create_backend_service, backendFreshCreation, hbs, hbn, hpn, hp, hdel, hcr, hadd, hat]
  exact ⟨h, by rw [h]; rfl⟩

/-- C6 (witness): the recovery law at the concrete poisoned world. -/
theorem C6_poisoned_state_recovery_witness :
    create_backend_service exPoisonedWorld exBackendEnvOk =
      (true, [GCall.bsDescribe, GCall.bsDelete, GCall.bsCreate,
              GCall.bsAddBackend, GCall.bsUpdatePolicy], ⟨true, true, none⟩) :=
  (C6_poisoned_state_recovery exPoisonedWorld exBackendEnvOk "http"
    rfl rfl rfl rfl rfl rfl rfl rfl).1

/-- C7 (counterexample): within a path matcher only the kind field is
stripped, so a fingerprint field carried by a matcher survives the
write-back serialization of both the add and the remove pipeline,
refuting the claim that none of the four output-only fields remains
within any path matcher. -/
theorem C7_counterexample :
    (removePipelineDoc exDocFP "/zzz").pathMatchers.any
      (fun pm => pm.extra.contains "fingerprint") = true ∧
    (addPipelineDoc "proj" exDocFP "/a" "bn" none).pathMatchers.any
      (fun pm => pm.extra.contains "fingerprint") = true := by
  decide

/-- C7 (amended): every document serialized for write-back, by
add_path_rule as well as by the removal phase, contains none of
creationTimestamp, selfLink, fingerprint, kind at top level; within
path matchers exactly the kind field is guaranteed absent (the other
three are stripped only at top level); and the id field survives as a
number exactly when the original value was an integer or an
integer-parseable string, and is dropped otherwise. -/
theorem C7_output_field_stripping (projId : String) (u : UrlMap)
    (path backendName : String) (cloudRunUrl : Option String) :
    (∀ f ∈ outputOnlyFields, f ∉ (addPipelineDoc projId u path backendName cloudRunUrl).extra) ∧
    (∀ pm ∈ (addPipelineDoc projId u path backendName cloudRunUrl).pathMatchers,
      "kind" ∉ pm.extra) ∧
    (addPipelineDoc projId u path backendName cloudRunUrl).id = idClean u.id ∧
    (∀ f ∈ outputOnlyFields, f ∉ (removePipelineDoc u path).extra) ∧
    (∀ pm ∈ (removePipelineDoc u path).pathMatchers, "kind" ∉ pm.extra) ∧
    (removePipelineDoc u path).id = idClean u.id ∧
    (match u.id with
     | none => idClean u.id = none
     | some (JsonId.jint n) => idClean u.id = some n
     | some (JsonId.jstr s) => idClean u.id = pyInt? s
     | some JsonId.jother => idClean u.id = none) := by
  refine ⟨?_, ?_, rfl, ?_, ?_, rfl, ?_⟩
  · intro f hf hmem
    simp only [addPipelineDoc] at hmem
    exact ((mem_stripUrlMap_extra _ f).mp hmem).2 hf
  · intro pm hpm
    simp only [addPipelineDoc] at hpm
    exact stripUrlMap_matcher_no_kind _ pm hpm
  · intro f hf hmem
    simp only [removePipelineDoc] at hmem
    exact ((mem_stripUrlMap_extra _ f).mp hmem).2 hf
  · intro pm hpm
    simp only [removePipelineDoc] at hpm
    exact stripUrlMap_matcher_no_kind _ pm hpm
  · cases hid : u.id with
    | none => rfl
    | some v => cases v <;> rfl

/-- C7 (witness): the amended stripping law applied at the concrete
document with a fingerprint-bearing matcher. -/
theorem C7_output_field_stripping_witness :
    "creationTimestamp" ∉ (removePipelineDoc exDocFP "/x").extra :=
  (C7_output_field_stripping "proj" exDocFP "/x" "bn" none).2.2.2.1
    "creationTimestamp" (by decide)

/-- C8: once remove_from_loadbalancer skips or passes confirmation, the
four teardown phases run in order — URL-map rule removal (its describe,
and its import when the fetch parsed), backend-service delete, NEG
delete, security-policy delete — no failure of any phase prevents the
later ones, and the manifest is always rewritten at the end: configured
flag false, path and url configs cleared, one log entry appended. -/
theorem C8_best_effort_teardown (cfg : ProjectConfig) (m : Manifest)
    (pathArg : Option String) (skip : Bool) (e : RemoveEnv)
    (h : skip = true ∨ removeConfirmOk e.confirmInput = true) :
    (remove_from_loadbalancer cfg m pathArg skip e).ok = true ∧
    ((remove_from_loadbalancer cfg m pathArg skip e).calls =
        [GCall.urlDescribe, GCall.bsDelete, GCall.negDelete, GCall.policyDelete] ∨
     (remove_from_loadbalancer cfg m pathArg skip e).calls =
        [GCall.urlDescribe, GCall.urlImport,
         GCall.bsDelete, GCall.negDelete, GCall.policyDelete]) ∧
    (remove_from_loadbalancer cfg m pathArg skip e).manifest =
      removeEndManifest m (removePathOf cfg m pathArg) (backendNameOf cfg) ∧
    (remove_from_loadbalancer cfg m pathArg skip e).manifest.log =
      m.log ++ [⟨"loadbalancer_remove",
        [("path", removePathOf cfg m pathArg), ("backend_name", backendNameOf cfg)]⟩] := by
  have hs := (remove_spec cfg m pathArg skip e).2 h
  refine ⟨hs.1, ?_, hs.2.2.1, ?_⟩
  · rcases hu : e.urlMapDoc with _ | u
    · exact Or.inl (hs.2.2.2.1 hu)
    · exact Or.inr ((hs.2.2.2.2 u hu).1)
  · rw [hs.2.2.1]
    rfl

/-- C8 (witness): the teardown law with confirmation skipped and a
failing URL-map fetch. -/
theorem C8_best_effort_teardown_witness :
    (remove_from_loadbalancer exCfg exManifestDeployed none true ⟨"", none⟩).ok = true :=
  (C8_best_effort_teardown exCfg exManifestDeployed none true ⟨"", none⟩ (Or.inl rfl)).1

/-- C9: on a fetched document with no matcher named path-matcher-1,
add_path_rule inserts the rule nowhere yet still imports the stripped
but otherwise unchanged document and reports success, and a confirmed
add_to_loadbalancer run whose other steps succeed therefore completes,
marks the manifest configured, and imports a document without the new
routing rule. -/
theorem C9_missing_matcher_silent_success (cfg : ProjectConfig) (m : Manifest)
    (pArg rArg sArg : Option String) (hr : Bool) (u : UrlMap) (e : AddEnv)
    (hm : ∀ pm ∈ u.pathMatchers, pm.name ≠ "path-matcher-1")
    (hd : m.getState "deployed" = true) (hc : addConfirmOk e.confirmInput = true)
    (h1 : (create_serverless_neg e.negWorld e.negCreateOk).1 = true)
    (h2 : (create_iap_oauth_client cfg e.oauthCmdOk e.oauthStdout).isSome = true)
    (h3 : (create_security_policy e.policyWorld e.policyCreateOk e.policyRuleOk).1 = true)
    (h4 : (create_backend_service e.backendWorld e.backendEnv).1 = true)
    (hu : e.urlMapDoc = some u) (hio : e.importOk = true) :
    (∀ (bn : String) (url : Option String) (imp : Bool),
      add_path_rule cfg (defaultPath cfg pArg) bn url (some u) imp =
        (imp, [GCall.urlDescribe, GCall.urlImport], some (stripUrlMap u))) ∧
    (add_to_loadbalancer cfg m pArg rArg sArg hr e).ok = true ∧
    (add_to_loadbalancer cfg m pArg rArg sArg hr e).imported = some (stripUrlMap u) ∧
    (add_to_loadbalancer cfg m pArg rArg sArg hr e).manifest.getState
      "loadbalancer_configured" = true := by
  have hins : ∀ r, insertRuleFirstMatch u.pathMatchers r = u.pathMatchers :=
    fun r => insertRuleFirstMatch_no_match u.pathMatchers r hm
  have hadd : ∀ (bn : String) (url : Option String) (imp : Bool),
      add_path_rule cfg (defaultPath cfg pArg) bn url (some u) imp =
        (imp, [GCall.urlDescribe, GCall.urlImport], some (stripUrlMap u)) := by
    intro bn url imp
    simp [add_path_rule, addPipelineDoc, hins]
  refine ⟨hadd, ?_⟩
  rcases hh1 : create_serverless_neg e.negWorld e.negCreateOk with ⟨ok1, tr1, w1⟩
  rcases hho : create_iap_oauth_client cfg e.oauthCmdOk e.oauthStdout with _ | oc
  · rw [hho] at h2
    simp at h2
  rcases hh3 : create_security_policy e.policyWorld e.policyCreateOk e.policyRuleOk
    with ⟨ok3, tr3, w3⟩
  rcases hh4 : create_backend_service e.backendWorld e.backendEnv with ⟨ok4, tr4, w4⟩
  rw [hh1] at h1
  rw [hh3] at h3
  rw [hh4] at h4
  simp only at h1 h3 h4
  subst h1 h3 h4
  cases hr <;>
    simp [add_to_loadbalancer, hh1, hho, hh3, hh4, hu, hio, hd, hc, grant_iap_access,
      add_path_rule, addPipelineDoc, hins, getState_updateConfig, getState_logOperation,
      getState_updateState_self]

/-- C9 (witness): the silent-success law at a concrete document whose
only matcher is named legacy-matcher, with every step succeeding. -/
theorem C9_missing_matcher_silent_success_witness :
    (add_to_loadbalancer exCfg exManifestDeployed none none none true exAddEnvOk).imported =
      some (stripUrlMap exDocLegacy) :=
  (C9_missing_matcher_silent_success exCfg exManifestDeployed none none none true
    exDocLegacy exAddEnvOk (by decide) (by decide) (by decide) (by decide) (by decide)
    (by decide) (by decide) (by decide) (by decide)).2.2.1

/-- C10: grant_iap_access invokes the IAM-binding command with its exit
code ignored and returns success for every exit code, and in the step
list of add_to_loadbalancer the IAP-grant step (position five) always
carries the outcome true, so it can never be the failing step that
aborts the orchestration. -/
theorem C10_iap_grant_never_fails :
    (∀ ec : Int, grant_iap_access ec = (true, [GCall.iapBind])) ∧
    (∀ (cfg : ProjectConfig) (path bn : String) (hr : Bool) (e : AddEnv),
      (addSteps cfg path bn hr e).getD 4 (false, []) = (true, [GCall.iapBind])) ∧
    (∀ (cfg : ProjectConfig) (m : Manifest) (pArg rArg sArg : Option String)
        (hr : Bool) (e : AddEnv),
      (add_to_loadbalancer cfg m pArg rArg sArg hr e).calls.getLast? ≠
        some GCall.iapBind) := by
  refine ⟨fun ec => rfl, fun cfg path bn hr e => rfl, ?_⟩
  intro cfg m pArg rArg sArg hr e
  by_cases hd : m.getState "deployed"
  case neg =>
    simp only [Bool.not_eq_true] at hd
    rw [add_not_deployed cfg m pArg rArg sArg hr e hd]
    simp
  case pos =>
    by_cases hc : addConfirmOk e.confirmInput
    case neg =>
      simp only [Bool.not_eq_true] at hc
      rw [add_not_confirmed cfg m pArg rArg sArg hr e hd hc]
      simp
    case pos =>
      rcases h1 : create_serverless_neg e.negWorld e.negCreateOk with ⟨ok1, tr1, w1⟩
      have htr1 : tr1.getLast? ≠ some GCall.iapBind := by
        rcases create_serverless_neg_trace e.negWorld e.negCreateOk with h | h <;>
          rw [h1] at h <;> simp_all
      rcases ho : create_iap_oauth_client cfg e.oauthCmdOk e.oauthStdout with _ | oc <;>
      rcases h3 : create_security_policy e.policyWorld e.policyCreateOk e.policyRuleOk
        with ⟨ok3, tr3, w3⟩ <;>
      rcases h4 : create_backend_service e.backendWorld e.backendEnv with ⟨ok4, tr4, w4⟩
      all_goals
        have htr3 := create_security_policy_trace e.policyWorld e.policyCreateOk e.policyRuleOk
        have htr4 := create_backend_service_trace e.backendWorld e.backendEnv
        rw [h3] at htr3
        rw [h4] at htr4
        obtain ⟨x3, hx3, hx3ne⟩ : ∃ x, tr3.getLast? = some x ∧ x ≠ GCall.iapBind := by
          cases hgl : tr3.getLast? with
          | none => exact absurd (List.getLast?_eq_none_iff.mp hgl) htr3.2
          | some x => exact ⟨x, rfl, fun hxx => htr3.1 (by rw [hgl, hxx])⟩
        obtain ⟨x4, hx4, hx4ne⟩ : ∃ x, tr4.getLast? = some x ∧ x ≠ GCall.iapBind := by
          cases hgl : tr4.getLast? with
          | none => exact absurd (List.getLast?_eq_none_iff.mp hgl) htr4.2
          | some x => exact ⟨x, rfl, fun hxx => htr4.1 (by rw [hgl, hxx])⟩
        rcases hu : e.urlMapDoc with _ | u <;>
        cases ok1 <;> cases ok3 <;> cases ok4 <;> cases hio : e.importOk <;> cases hr <;>
          simp_all [add_to_loadbalancer, h1, ho, h3, h4, hu, hio, hd, hc,
            grant_iap_access, add_path_rule, List.getLast?_append, List.getLast?_concat,
            List.getLast?_cons, Option.or]

/-- C10 (witness): the grant law at a concrete non-zero exit code, and
the trace law at a concrete full run. -/
theorem C10_iap_grant_never_fails_witness :
    grant_iap_access 7 = (true, [GCall.iapBind]) ∧
    (add_to_loadbalancer exCfg exManifestDeployed none none none true
      exAddEnvOk).calls.getLast? ≠ some GCall.iapBind :=
  ⟨C10_iap_grant_never_fails.1 7,
   C10_iap_grant_never_fails.2.2 exCfg exManifestDeployed none none none true exAddEnvOk⟩

end BffLB
